import Mathlib

/-!
# Verification of `src/06-objects-tasks.js`

A shallow embedding of the module's objects and of the `cssSelectorBuilder`
facade, with theorems about selector construction.

Modelling notes, all read off the JavaScript source:

* A builder value is the record of own fields of `cssSelectorBuilder`
  (`result`, the three `isSelectorHave…` flags, `currentOrder`).
* Every method of the source starts with `const copyObj = { ...this }` and
  writes only to `copyObj`; no fragment method assigns to `this`.  We model
  each method as returning a pair `(receiver state after the call, return
  value)`, so that the absence of receiver mutation is a provable statement
  rather than an artefact of purity.
* `throw new Error(msg)` is modelled as `Except.error msg`; the source uses
  two fixed message strings, one for order violations and one for
  uniqueness violations, which play the role of the spec's
  `SelectorOrderError` and `SelectorUniquenessError`.
* `stringify` assigns `this.result = ''` and `this.currentOrder = []` and
  returns the old text: modelled as `Builder → String × Builder`
  (return value, receiver state after the call).
* `combine(s1, c, s2)` calls `s1.stringify()` and `s2.stringify()` and
  copies `this`: modelled as returning the receiver's post-state, both
  operands' post-states, and the produced value.
* `class` and `attr` keyword clashes: the source's `class` method is
  `Builder.cls`, its `attr` method is `Builder.attr`; the fragment-kind
  enumeration mirrors the source's `rightOrder` strings.
-/

namespace ObjectsTasks

/-- Embeds `Rectangle(width, height)`: the returned object literal
`{ width, height, getArea() }`.  JS numbers are modelled as integers,
the domain the exercise uses. -/
structure RectangleObj where
  width : Int
  height : Int
deriving DecidableEq, Repr

/-- `function Rectangle(width, height)` from the source. -/
def Rectangle (width height : Int) : RectangleObj :=
  { width := width, height := height }

/-- The `getArea()` method: `this.width * this.height`. -/
def RectangleObj.getArea (r : RectangleObj) : Int :=
  r.width * r.height

/-- The six selector fragment kinds, in the source's `rightOrder`
sequence.  `cls` models the source's `class` method, `attr` its
`attr` (attribute) method. -/
inductive Kind
  | element
  | id
  | cls
  | attr
  | pseudoClass
  | pseudoElement
deriving DecidableEq, Repr

/-- The string the source stores in `currentOrder` for each kind. -/
def kindStr : Kind → String
  | .element => "element"
  | .id => "id"
  | .cls => "class"
  | .attr => "attribute"
  | .pseudoClass => "pseudo-class"
  | .pseudoElement => "pseudo-element"

/-- Position of a kind in the source's `rightOrder` array. -/
def rank : Kind → Nat
  | .element => 0
  | .id => 1
  | .cls => 2
  | .attr => 3
  | .pseudoClass => 4
  | .pseudoElement => 5

/-- All six kinds, in rank order. -/
def Kind.all : List Kind :=
  [.element, .id, .cls, .attr, .pseudoClass, .pseudoElement]

/-- Own data fields of the `cssSelectorBuilder` object (and of every
copy produced by its methods). -/
structure Builder where
  result : String
  isSelectorHaveElement : Bool
  isSelectorHaveId : Bool
  isSelectorHavePseudoElement : Bool
  currentOrder : List String
deriving DecidableEq, Repr

/-- The source's `rightOrder` array. -/
def rightOrder : List String :=
  ["element", "id", "class", "attribute", "pseudo-class", "pseudo-element"]

/-- Message of the order-violation error (`SelectorOrderError`). -/
def orderMsg : String :=
  "Selector parts should be arranged in the following order: element, id, class, attribute, pseudo-class, pseudo-element"

/-- Message of the uniqueness-violation error (`SelectorUniquenessError`). -/
def uniqMsg : String :=
  "Element, id and pseudo-element should not occur more then one time inside the selector"

/-- `isOrderRight(currentSelector)`: builds
`patternArr = rightOrder.slice(rightOrder.indexOf(currentSelector) + 1)`
and rejects when some already-emitted kind lies in it. -/
def Builder.isOrderRight (b : Builder) (currentSelector : String) : Bool :=
  let patternArr := rightOrder.drop (rightOrder.indexOf currentSelector + 1)
  if b.currentOrder.any fun sel => patternArr.contains sel then false else true

/-- The initial field values of the `cssSelectorBuilder` facade object. -/
def cssSelectorBuilder : Builder :=
  { result := ""
    isSelectorHaveElement := false
    isSelectorHaveId := false
    isSelectorHavePseudoElement := false
    currentOrder := [] }

/-- The `element(value)` method.  Returns (receiver state after the
call, outcome).  The receiver component is `b` on every path because the
method writes only to its local copy. -/
def Builder.element (b : Builder) (value : String) :
    Builder × Except String Builder :=
  if !(b.isOrderRight "element") then (b, .error orderMsg)
  else if b.isSelectorHaveElement then (b, .error uniqMsg)
  else (b, .ok { b with
    result := b.result ++ value
    isSelectorHaveElement := true
    currentOrder := b.currentOrder ++ ["element"] })

/-- The `id(value)` method. -/
def Builder.id (b : Builder) (value : String) :
    Builder × Except String Builder :=
  if !(b.isOrderRight "id") then (b, .error orderMsg)
  else if b.isSelectorHaveId then (b, .error uniqMsg)
  else (b, .ok { b with
    result := b.result ++ "#" ++ value
    isSelectorHaveId := true
    currentOrder := b.currentOrder ++ ["id"] })

/-- The `class(value)` method (named `cls` as `class` is reserved). -/
def Builder.cls (b : Builder) (value : String) :
    Builder × Except String Builder :=
  if !(b.isOrderRight "class") then (b, .error orderMsg)
  else (b, .ok { b with
    result := b.result ++ "." ++ value
    currentOrder := b.currentOrder ++ ["class"] })

/-- The `attr(value)` method. -/
def Builder.attr (b : Builder) (value : String) :
    Builder × Except String Builder :=
  if !(b.isOrderRight "attribute") then (b, .error orderMsg)
  else (b, .ok { b with
    result := b.result ++ "[" ++ value ++ "]"
    currentOrder := b.currentOrder ++ ["attribute"] })

/-- The `pseudoClass(value)` method. -/
def Builder.pseudoClass (b : Builder) (value : String) :
    Builder × Except String Builder :=
  if !(b.isOrderRight "pseudo-class") then (b, .error orderMsg)
  else (b, .ok { b with
    result := b.result ++ ":" ++ value
    currentOrder := b.currentOrder ++ ["pseudo-class"] })

/-- The `pseudoElement(value)` method. -/
def Builder.pseudoElement (b : Builder) (value : String) :
    Builder × Except String Builder :=
  if !(b.isOrderRight "pseudo-element") then (b, .error orderMsg)
  else if b.isSelectorHavePseudoElement then (b, .error uniqMsg)
  else (b, .ok { b with
    result := b.result ++ "::" ++ value
    isSelectorHavePseudoElement := true
    currentOrder := b.currentOrder ++ ["pseudo-element"] })

/-- The `stringify()` method: returns the accumulated text and the
receiver's state after the call (`result` and `currentOrder` cleared,
flags untouched). -/
def Builder.stringify (b : Builder) : String × Builder :=
  (b.result, { b with result := "", currentOrder := [] })

/-- The `combine(selector1, combinator, selector2)` method, invoked on
receiver `t`.  Returns (receiver post-state, `selector1` post-state,
`selector2` post-state, produced value); the operands are rendered via
`stringify`, incurring its receiver-clearing effect. -/
def Builder.combine (t s1 : Builder) (combinator : String) (s2 : Builder) :
    Builder × Builder × Builder × Builder :=
  let p1 := s1.stringify
  let p2 := s2.stringify
  (t, p1.2, p2.2, { t with result := p1.1 ++ " " ++ combinator ++ " " ++ p2.1 })

/-- Dispatch a fragment-adding method by kind. -/
def applyFrag (b : Builder) (k : Kind) (v : String) :
    Builder × Except String Builder :=
  match k with
  | .element => b.element v
  | .id => Builder.id b v
  | .cls => b.cls v
  | .attr => b.attr v
  | .pseudoClass => b.pseudoClass v
  | .pseudoElement => b.pseudoElement v

/-- Run a chain of fragment-adding calls, propagating the first error. -/
def runChain (b : Builder) : List (Kind × String) → Except String Builder
  | [] => .ok b
  | p :: rest =>
    match (applyFrag b p.1 p.2).2 with
    | .error e => .error e
    | .ok b' => runChain b' rest

/-- Rendered form of one fragment. -/
def renderFrag : Kind → String → String
  | .element, v => v
  | .id, v => "#" ++ v
  | .cls, v => "." ++ v
  | .attr, v => "[" ++ v ++ "]"
  | .pseudoClass, v => ":" ++ v
  | .pseudoElement, v => "::" ++ v

/-- Concatenation, in call order, of the rendered forms of a chain. -/
def chainResult : List (Kind × String) → String
  | [] => ""
  | p :: rest => renderFrag p.1 p.2 ++ chainResult rest

/-- The uniqueness flag the source consults for a kind (`false` for the
repeatable kinds, which have no flag). -/
def uniqFlag (b : Builder) : Kind → Bool
  | .element => b.isSelectorHaveElement
  | .id => b.isSelectorHaveId
  | .pseudoElement => b.isSelectorHavePseudoElement
  | _ => false

/-- The builder state a successful chain produces from `b`. -/
def chainState (b : Builder) (frags : List (Kind × String)) : Builder :=
  { result := b.result ++ chainResult frags
    isSelectorHaveElement :=
      b.isSelectorHaveElement || frags.any fun p => p.1 == Kind.element
    isSelectorHaveId :=
      b.isSelectorHaveId || frags.any fun p => p.1 == Kind.id
    isSelectorHavePseudoElement :=
      b.isSelectorHavePseudoElement || frags.any fun p => p.1 == Kind.pseudoElement
    currentOrder := b.currentOrder ++ frags.map fun p => kindStr p.1 }

/-- One call that can reach the shared facade object: a fragment method,
a `stringify`, or a `combine` with the facade as receiver or operand. -/
inductive Api
  | frag (k : Kind) (v : String)
  | render
  | combineRecv (s1 : Builder) (c : String) (s2 : Builder)
  | combineLeft (t : Builder) (c : String) (s2 : Builder)
  | combineRight (t : Builder) (s1 : Builder) (c : String)

/-- How one API call transforms the state of the object it touches. -/
def templateStep (b : Builder) : Api → Builder
  | .frag k v => (applyFrag b k v).1
  | .render => b.stringify.2
  | .combineRecv s1 c s2 => (b.combine s1 c s2).1
  | .combineLeft t c s2 => (t.combine b c s2).2.1
  | .combineRight t s1 c => (t.combine s1 c b).2.2.1

/-- Builder state after the chain `element('a')`: used as a concrete
test value. -/
def bAfterElement : Builder :=
  { result := "a"
    isSelectorHaveElement := true
    isSelectorHaveId := false
    isSelectorHavePseudoElement := false
    currentOrder := ["element"] }

/-- Builder state after the chain `class('c')`: used as a concrete
test value. -/
def bAfterClass : Builder :=
  { result := ".c"
    isSelectorHaveElement := false
    isSelectorHaveId := false
    isSelectorHavePseudoElement := false
    currentOrder := ["class"] }

/-! ## Helper lemmas -/

lemma mem_kind_all (k : Kind) : k ∈ Kind.all := by
  cases k <;> simp [Kind.all]

lemma kindStr_inj {k0 k1 : Kind} (h : kindStr k0 = kindStr k1) : k0 = k1 := by
  cases k0 <;> cases k1 <;> first | rfl | exact absurd h (by decide)

lemma droplist_eq (k : Kind) :
    rightOrder.drop (rightOrder.indexOf (kindStr k) + 1)
      = (Kind.all.filter fun k0 => decide (rank k < rank k0)).map kindStr := by
  cases k <;> rfl

lemma mem_droplist {k k0 : Kind} (h : rank k < rank k0) :
    kindStr k0 ∈ rightOrder.drop (rightOrder.indexOf (kindStr k) + 1) := by
  rw [droplist_eq]
  exact List.mem_map_of_mem _ (List.mem_filter.mpr ⟨mem_kind_all k0, by simpa⟩)

lemma isOrderRight_true (b : Builder) (k : Kind)
    (h : ∀ s ∈ b.currentOrder, ∀ k0 : Kind, s = kindStr k0 → rank k0 ≤ rank k) :
    b.isOrderRight (kindStr k) = true := by
  simp only [Builder.isOrderRight]
  rw [if_neg]
  simp only [List.any_eq_true, not_exists, not_and]
  intro s hs hcon
  rw [List.contains_iff_exists_mem_beq] at hcon
  obtain ⟨s', hs', hbeq⟩ := hcon
  rw [droplist_eq] at hs'
  obtain ⟨k0, hk0, rfl⟩ := List.mem_map.mp hs'
  obtain ⟨_, hrk⟩ := List.mem_filter.mp hk0
  have hle : rank k0 ≤ rank k := h s hs k0 (by simpa using hbeq)
  simp at hrk
  omega

lemma isOrderRight_false (b : Builder) (k k0 : Kind)
    (h0 : kindStr k0 ∈ b.currentOrder) (h : rank k < rank k0) :
    b.isOrderRight (kindStr k) = false := by
  have hany : (b.currentOrder.any fun sel =>
      (rightOrder.drop (rightOrder.indexOf (kindStr k) + 1)).contains sel)
        = true :=
    List.any_eq_true.mpr ⟨kindStr k0, h0,
      List.contains_iff_exists_mem_beq.mpr ⟨kindStr k0, mem_droplist h, by simp⟩⟩
  simp only [Builder.isOrderRight]
  rw [if_pos]
  exact hany

lemma applyFrag_fst (b : Builder) (k : Kind) (v : String) :
    (applyFrag b k v).1 = b := by
  cases k <;>
    simp only [applyFrag, Builder.element, Builder.id, Builder.cls,
      Builder.attr, Builder.pseudoClass, Builder.pseudoElement] <;>
    split_ifs <;> rfl

/-- The builder value a successful fragment call of kind `k` produces. -/
def stepState (b : Builder) (k : Kind) (v : String) : Builder :=
  { result := b.result ++ renderFrag k v
    isSelectorHaveElement := b.isSelectorHaveElement || (k == Kind.element)
    isSelectorHaveId := b.isSelectorHaveId || (k == Kind.id)
    isSelectorHavePseudoElement :=
      b.isSelectorHavePseudoElement || (k == Kind.pseudoElement)
    currentOrder := b.currentOrder ++ [kindStr k] }

lemma step_ok (b : Builder) (k : Kind) (v : String)
    (hord : ∀ s ∈ b.currentOrder, ∀ k0 : Kind, s = kindStr k0 → rank k0 ≤ rank k)
    (hu : uniqFlag b k = false) :
    (applyFrag b k v).2 = .ok (stepState b k v) := by
  have hOR := isOrderRight_true b k hord
  cases k <;>
    simp_all [applyFrag, Builder.element, Builder.id, Builder.cls,
      Builder.attr, Builder.pseudoClass, Builder.pseudoElement, stepState,
      uniqFlag, kindStr, renderFrag, String.append_assoc]

lemma runChain_cons (b : Builder) (k : Kind) (v : String)
    (rest : List (Kind × String)) :
    runChain b ((k, v) :: rest) = match (applyFrag b k v).2 with
      | .error e => .error e
      | .ok b' => runChain b' rest := rfl

lemma chainState_cons (b : Builder) (k : Kind) (v : String)
    (rest : List (Kind × String)) :
    chainState b ((k, v) :: rest) = chainState (stepState b k v) rest := by
  simp [chainState, stepState, chainResult, String.append_assoc, Bool.or_assoc]

lemma runChain_spec (frags : List (Kind × String)) : ∀ b : Builder,
    frags.Pairwise (fun p q => rank p.1 ≤ rank q.1) →
    (∀ s ∈ b.currentOrder, ∀ k0 : Kind, s = kindStr k0 →
      ∀ p ∈ frags, rank k0 ≤ rank p.1) →
    (∀ k : Kind, uniqFlag b k = true → ∀ p ∈ frags, p.1 ≠ k) →
    (∀ k : Kind, k ∈ ([.element, .id, .pseudoElement] : List Kind) →
      (frags.map Prod.fst).count k ≤ 1) →
    runChain b frags = .ok (chainState b frags) := by
  induction frags with
  | nil =>
    intro b _ _ _ _
    simp [runChain, chainState, chainResult]
  | cons p rest ih =>
    intro b hpair hord hflag hcnt
    obtain ⟨k, v⟩ := p
    obtain ⟨hhead, htail⟩ := List.pairwise_cons.mp hpair
    have hordk : ∀ s ∈ b.currentOrder, ∀ k0 : Kind,
        s = kindStr k0 → rank k0 ≤ rank k :=
      fun s hs k0 he => hord s hs k0 he (k, v) (List.mem_cons_self _ _)
    have hu : uniqFlag b k = false := by
      cases hflagval : uniqFlag b k
      · rfl
      · exact absurd rfl (hflag k hflagval (k, v) (List.mem_cons_self _ _))
    have hrest_ne : ∀ k' : Kind,
        k' ∈ ([Kind.element, Kind.id, Kind.pseudoElement] : List Kind) →
        (uniqFlag b k' = true ∨ k = k') → ∀ p ∈ rest, p.1 ≠ k' := by
      intro k' hk' hor p hp
      cases hor with
      | inl h => exact hflag k' h p (List.mem_cons_of_mem _ hp)
      | inr h =>
        subst h
        have hc := hcnt k hk'
        rw [List.map_cons, List.count_cons_self] at hc
        have h0 : (rest.map Prod.fst).count k = 0 := by omega
        intro he
        rw [List.count_eq_zero] at h0
        exact h0 (he ▸ List.mem_map_of_mem Prod.fst hp)
    have h1 : ∀ s ∈ (stepState b k v).currentOrder, ∀ k0 : Kind,
        s = kindStr k0 → ∀ p ∈ rest, rank k0 ≤ rank p.1 := by
      intro s hs k0 he p hp
      simp only [stepState] at hs
      rcases List.mem_append.mp hs with hsl | hsr
      · exact hord s hsl k0 he p (List.mem_cons_of_mem _ hp)
      · have hsk : s = kindStr k := by simpa using hsr
        rw [hsk] at he
        rw [kindStr_inj he.symm]
        exact hhead p hp
    have h2 : ∀ k' : Kind, uniqFlag (stepState b k v) k' = true →
        ∀ p ∈ rest, p.1 ≠ k' := by
      intro k' hf p hp
      cases k' with
      | element =>
        refine hrest_ne .element (by decide) ?_ p hp
        simpa [uniqFlag, stepState] using hf
      | id =>
        refine hrest_ne .id (by decide) ?_ p hp
        simpa [uniqFlag, stepState] using hf
      | pseudoElement =>
        refine hrest_ne .pseudoElement (by decide) ?_ p hp
        simpa [uniqFlag, stepState] using hf
      | cls => simp [uniqFlag] at hf
      | attr => simp [uniqFlag] at hf
      | pseudoClass => simp [uniqFlag] at hf
    have h3 : ∀ k' : Kind,
        k' ∈ ([Kind.element, Kind.id, Kind.pseudoElement] : List Kind) →
        (rest.map Prod.fst).count k' ≤ 1 := by
      intro k' hk'
      have hc := hcnt k' hk'
      rw [List.map_cons, List.count_cons] at hc
      split at hc <;> omega
    rw [runChain_cons, step_ok b k v hordk hu]
    show runChain (stepState b k v) rest = Except.ok (chainState b ((k, v) :: rest))
    rw [chainState_cons]
    exact ih (stepState b k v) htail h1 h2 h3

lemma isOrderRight_nil (b : Builder) (h : b.currentOrder = []) (s : String) :
    b.isOrderRight s = true := by
  simp [Builder.isOrderRight, h]

lemma applyFrag_ok_currentOrder {b : Builder} {k : Kind} {v : String}
    {b' : Builder} (h : (applyFrag b k v).2 = .ok b') :
    b'.currentOrder = b.currentOrder ++ [kindStr k] := by
  cases k <;>
    (simp only [applyFrag, Builder.element, Builder.id, Builder.cls,
       Builder.attr, Builder.pseudoClass, Builder.pseudoElement] at h
     split_ifs at h <;> simp_all [kindStr] <;> (subst h; rfl))

lemma applyFrag_error_msg {b : Builder} {k : Kind} {v : String} {e : String}
    (h : (applyFrag b k v).2 = .error e) : e = orderMsg ∨ e = uniqMsg := by
  cases k <;>
    (simp only [applyFrag, Builder.element, Builder.id, Builder.cls,
       Builder.attr, Builder.pseudoClass, Builder.pseudoElement] at h
     split_ifs at h <;> simp_all)

lemma templateStep_fixed (a : Api) :
    templateStep cssSelectorBuilder a = cssSelectorBuilder := by
  cases a with
  | frag k v => exact applyFrag_fst cssSelectorBuilder k v
  | render => rfl
  | combineRecv s1 c s2 => rfl
  | combineLeft t c s2 => rfl
  | combineRight t s1 c => rfl

/-! ## Claim theorems -/

/-- C1: every chain of fragment-adding operations starting from the empty
template whose fragment kinds are in non-decreasing rank order and which
respects the at-most-once rule for element, id and pseudo-element succeeds,
and rendering yields exactly the concatenation, in call order, of each
fragment's rendered form (value, `#value`, `.value`, `[value]`, `:value`,
`::value`); class, attribute and pseudo-class may repeat freely. -/
theorem C1_ordered_chain_succeeds (frags : List (Kind × String))
    (hord : frags.Pairwise fun p q => rank p.1 ≤ rank q.1)
    (hel : (frags.map Prod.fst).count Kind.element ≤ 1)
    (hid : (frags.map Prod.fst).count Kind.id ≤ 1)
    (hpe : (frags.map Prod.fst).count Kind.pseudoElement ≤ 1) :
    ∃ b : Builder, runChain cssSelectorBuilder frags = .ok b ∧
      b.stringify.1 = chainResult frags := by
  refine ⟨chainState cssSelectorBuilder frags, ?_, ?_⟩
  · apply runChain_spec frags cssSelectorBuilder hord
    · intro s hs
      simp [cssSelectorBuilder] at hs
    · intro k hk
      cases k <;> simp [uniqFlag, cssSelectorBuilder] at hk
    · intro k hk
      simp at hk
      rcases hk with rfl | rfl | rfl
      · exact hel
      · exact hid
      · exact hpe
  · simp [Builder.stringify, chainState, cssSelectorBuilder]

/-- Witness for C1 at the spec's scenario
`element('a').attr('href').pseudoClass('focus')` extended to a chain
exercising every kind, with repeated classes. -/
theorem C1_witness : ∃ b : Builder,
    runChain cssSelectorBuilder
      [(Kind.element, "div"), (Kind.id, "main"), (Kind.cls, "container"),
       (Kind.cls, "draggable"), (Kind.attr, "href"), (Kind.pseudoClass, "focus"),
       (Kind.pseudoElement, "after")] = .ok b ∧
    b.stringify.1 = chainResult
      [(Kind.element, "div"), (Kind.id, "main"), (Kind.cls, "container"),
       (Kind.cls, "draggable"), (Kind.attr, "href"), (Kind.pseudoClass, "focus"),
       (Kind.pseudoElement, "after")] :=
  C1_ordered_chain_succeeds _ (by decide) (by decide) (by decide) (by decide)

/-- C2: adding a fragment of kind `k` to a builder whose emitted-kind
sequence already holds a kind of strictly greater rank fails with the
order error and its fixed message. -/
theorem C2_out_of_order_rejected (b : Builder) (k : Kind) (v : String)
    (h : ∃ k0 : Kind, kindStr k0 ∈ b.currentOrder ∧ rank k < rank k0) :
    (applyFrag b k v).2 = .error orderMsg := by
  obtain ⟨k0, hmem, hrk⟩ := h
  have hOR := isOrderRight_false b k k0 hmem hrk
  cases k <;>
    simp_all [applyFrag, Builder.element, Builder.id, Builder.cls,
      Builder.attr, Builder.pseudoClass, Builder.pseudoElement, kindStr]

/-- Witness for C2: `id('main')` after `class('c')` fails with the order
error. -/
theorem C2_witness : (applyFrag bAfterClass Kind.id "main").2 = .error orderMsg :=
  C2_out_of_order_rejected bAfterClass Kind.id "main"
    ⟨Kind.cls, by decide, by decide⟩

/-- C3 counterexample: in the chain `element('a').class('c').element('b')`
the second `element` call fails with the order error, whose message is not
the uniqueness message, refuting that every second `element` call in a
chain fails with the uniqueness error. -/
theorem C3_counterexample :
    runChain cssSelectorBuilder
      [(Kind.element, "a"), (Kind.cls, "c"), (Kind.element, "b")]
      = .error orderMsg ∧ orderMsg ≠ uniqMsg := by
  refine ⟨rfl, by decide⟩

/-- C3 (amended): a second `element` (resp. `id`) call fails with the
uniqueness error provided no strictly higher-ranked kind has been emitted
(otherwise the order check fails first, with the order error); a second
`pseudoElement` call always fails with the uniqueness error, as no kind
ranks above it. -/
theorem C3_second_unique_rejected (b : Builder) (v : String) :
    (b.isSelectorHaveElement = true →
      (∀ s ∈ b.currentOrder, ∀ k0 : Kind, s = kindStr k0 →
        rank k0 ≤ rank Kind.element) →
      (b.element v).2 = .error uniqMsg) ∧
    (b.isSelectorHaveId = true →
      (∀ s ∈ b.currentOrder, ∀ k0 : Kind, s = kindStr k0 →
        rank k0 ≤ rank Kind.id) →
      (Builder.id b v).2 = .error uniqMsg) ∧
    (b.isSelectorHavePseudoElement = true →
      (b.pseudoElement v).2 = .error uniqMsg) := by
  refine ⟨?_, ?_, ?_⟩
  · intro hf hordh
    have hOR := isOrderRight_true b Kind.element hordh
    simp only [kindStr] at hOR
    simp [Builder.element, hOR, hf]
  · intro hf hordh
    have hOR := isOrderRight_true b Kind.id hordh
    simp only [kindStr] at hOR
    simp [Builder.id, hOR, hf]
  · intro hf
    have hordh : ∀ s ∈ b.currentOrder, ∀ k0 : Kind, s = kindStr k0 →
        rank k0 ≤ rank Kind.pseudoElement := by
      intro s _ k0 _
      cases k0 <;> simp [rank]
    have hOR := isOrderRight_true b Kind.pseudoElement hordh
    simp only [kindStr] at hOR
    simp [Builder.pseudoElement, hOR, hf]

/-- Witness for C3 (amended): a second `element` right after the first
fails with the uniqueness error. -/
theorem C3_witness : (bAfterElement.element "b").2 = .error uniqMsg :=
  (C3_second_unique_rejected bAfterElement "b").1 rfl (by
    intro s hs k0 he
    simp only [bAfterElement, List.mem_singleton] at hs
    subst hs
    have hk : k0 = Kind.element :=
      (kindStr_inj (show kindStr Kind.element = kindStr k0 from he)).symm
    subst hk
    exact le_refl _)

/-- C4: `combine(a, c, b)` produces a value rendering as
`render(a) ++ " " ++ c ++ " " ++ render(b)`, and this composes under
nesting: `combine(combine(a, c1, b), c2, c)` renders as the concatenation
of a's text, the combinators and the other operands' texts. -/
theorem C4_combine_renders (t u a b c : Builder) (c1 c2 : String) :
    ((t.combine a c1 b).2.2.2).stringify.1
      = a.result ++ " " ++ c1 ++ " " ++ b.result ∧
    ((u.combine ((t.combine a c1 b).2.2.2) c2 c).2.2.2).stringify.1
      = a.result ++ " " ++ c1 ++ " " ++ b.result
          ++ " " ++ c2 ++ " " ++ c.result :=
  ⟨rfl, rfl⟩

/-- C5: after any sequence of API calls that can touch it, the shared
facade/template object still equals the pristine empty builder: its
accumulated text is empty, its ordering bookkeeping is empty, and chains
built from it behave exactly as chains built from the empty template, so
two independent chains share no leftover state. -/
theorem C5_template_reset (trace : List Api) (frags : List (Kind × String)) :
    trace.foldl templateStep cssSelectorBuilder = cssSelectorBuilder ∧
    (trace.foldl templateStep cssSelectorBuilder).result = "" ∧
    (trace.foldl templateStep cssSelectorBuilder).currentOrder = [] ∧
    (trace.foldl templateStep cssSelectorBuilder).isSelectorHaveElement = false ∧
    (trace.foldl templateStep cssSelectorBuilder).isSelectorHaveId = false ∧
    (trace.foldl templateStep cssSelectorBuilder).isSelectorHavePseudoElement
      = false ∧
    runChain (trace.foldl templateStep cssSelectorBuilder) frags
      = runChain cssSelectorBuilder frags := by
  have hfix : trace.foldl templateStep cssSelectorBuilder = cssSelectorBuilder := by
    induction trace with
    | nil => rfl
    | cons a rest ih =>
      rw [List.foldl_cons, templateStep_fixed]
      exact ih
  rw [hfix]
  exact ⟨rfl, rfl, rfl, rfl, rfl, rfl, rfl⟩

/-- C6: every fragment-adding operation leaves the builder value it was
invoked on unchanged in all fields and, on success, returns a builder
value distinct from it. -/
theorem C6_frag_ops_copy (b : Builder) (k : Kind) (v : String) :
    (applyFrag b k v).1 = b ∧
    ∀ b' : Builder, (applyFrag b k v).2 = .ok b' → b' ≠ b := by
  refine ⟨applyFrag_fst b k v, ?_⟩
  intro b' hok heq
  have hco := applyFrag_ok_currentOrder hok
  rw [heq] at hco
  have hlen := congrArg List.length hco
  simp at hlen

/-- Witness for C6: `element('a')` on the facade leaves the facade
unchanged and returns a distinct value. -/
theorem C6_witness :
    (applyFrag cssSelectorBuilder Kind.element "a").1 = cssSelectorBuilder ∧
    bAfterElement ≠ cssSelectorBuilder :=
  ⟨(C6_frag_ops_copy cssSelectorBuilder Kind.element "a").1,
   (C6_frag_ops_copy cssSelectorBuilder Kind.element "a").2 bAfterElement rfl⟩

/-- C7: when a fragment-adding operation fails, the receiver is left
exactly as it was, the error is one of the two validation errors, and it
propagates as the outcome of the whole chain with no partial result. -/
theorem C7_error_leaves_builder (b : Builder) (k : Kind) (v : String)
    (e : String) (rest : List (Kind × String))
    (h : (applyFrag b k v).2 = .error e) :
    (applyFrag b k v).1 = b ∧ (e = orderMsg ∨ e = uniqMsg) ∧
    runChain b ((k, v) :: rest) = .error e := by
  refine ⟨applyFrag_fst b k v, applyFrag_error_msg h, ?_⟩
  rw [runChain_cons, h]

/-- Witness for C7: `element('x')` on a builder that already emitted
`class` fails, leaves the builder unchanged, and aborts the chain. -/
theorem C7_witness :
    (applyFrag bAfterClass Kind.element "x").1 = bAfterClass ∧
    (orderMsg = orderMsg ∨ orderMsg = uniqMsg) ∧
    runChain bAfterClass [(Kind.element, "x")] = .error orderMsg :=
  C7_error_leaves_builder bAfterClass Kind.element "x" orderMsg [] rfl

/-- C8: the rectangle factory stores both numbers and `getArea()` returns
their product; in particular `Rectangle(10,20).getArea() = 200`. -/
theorem C8_rectangle_factory (w h : Int) :
    (Rectangle w h).width = w ∧ (Rectangle w h).height = h ∧
    (Rectangle w h).getArea = w * h ∧ (Rectangle 10 20).getArea = 200 :=
  ⟨rfl, rfl, rfl, by decide⟩

/-- C9: `stringify` clears the receiver's accumulated text and emitted-kind
sequence but keeps its three uniqueness flags, so a builder that contained
an element, id or pseudo-element still rejects a new fragment of that kind
with the uniqueness error after rendering, even though its text is empty. -/
theorem C9_render_keeps_flags (b : Builder) (v : String) :
    b.stringify.2.result = "" ∧
    b.stringify.2.currentOrder = [] ∧
    b.stringify.2.isSelectorHaveElement = b.isSelectorHaveElement ∧
    b.stringify.2.isSelectorHaveId = b.isSelectorHaveId ∧
    b.stringify.2.isSelectorHavePseudoElement
      = b.isSelectorHavePseudoElement ∧
    (b.isSelectorHaveElement = true →
      (b.stringify.2.element v).2 = .error uniqMsg) ∧
    (b.isSelectorHaveId = true →
      (Builder.id b.stringify.2 v).2 = .error uniqMsg) ∧
    (b.isSelectorHavePseudoElement = true →
      (b.stringify.2.pseudoElement v).2 = .error uniqMsg) := by
  refine ⟨rfl, rfl, rfl, rfl, rfl, ?_, ?_, ?_⟩
  · intro hf
    simp [Builder.element, Builder.stringify, hf, isOrderRight_nil]
  · intro hf
    simp [Builder.id, Builder.stringify, hf, isOrderRight_nil]
  · intro hf
    simp [Builder.pseudoElement, Builder.stringify, hf, isOrderRight_nil]

/-- Witness for C9: after rendering `element('a')`, a new `element` call
on the rendered (now empty-text) value still fails with the uniqueness
error. -/
theorem C9_witness :
    ((bAfterElement.stringify.2).element "b").2 = .error uniqMsg :=
  (C9_render_keeps_flags bAfterElement "b").2.2.2.2.2.1 rfl

/-- C10: `combine` renders both operands, so after any combine call both
operand builder values have empty accumulated text and rendering either
of them again yields the empty string. -/
theorem C10_combine_clears_operands (t a b : Builder) (c : String) :
    (t.combine a c b).2.1.result = "" ∧
    (t.combine a c b).2.2.1.result = "" ∧
    ((t.combine a c b).2.1).stringify.1 = "" ∧
    ((t.combine a c b).2.2.1).stringify.1 = "" :=
  ⟨rfl, rfl, rfl, rfl⟩

end ObjectsTasks
